import Mathlib

/-
Verification of the nesemu NES emulator core against its specification.

The Rust sources are shallowly embedded: machine integers become Nat with
explicit wrap-arounds (`% 256`, `% 65536`) at the points where the Rust code
performs u8/u16 arithmetic; byte arrays that the claims only ever index are
modelled as total byte maps `Nat → Nat`; fallible paths (Rust panics) become
an explicit constructor of a result type.
-/

namespace Nesemu

/-- Mirroring kind from src/cartridge.rs (`enum MirroringType`). -/
inductive MirroringType where
  | Vertical
  | Horizontal
  | FourScreen
deriving DecidableEq

/-- PPUADDR shadow register from src/ppu/reg_addr.rs: latched high/low byte
pair plus the write toggle `first_write`. -/
structure PPUADDR where
  ll : Nat
  hh : Nat
  first_write : Bool
deriving DecidableEq

/-- PPUADDR::get: `(hh << 8) | ll`; for bytes this is `256 * hh + ll`. -/
def PPUADDR.get (a : PPUADDR) : Nat :=
  256 * a.hh + a.ll

/-- PPUADDR::set: split a 16-bit value into high and low bytes. -/
def PPUADDR.set (a : PPUADDR) (value : Nat) : PPUADDR :=
  { a with hh := (value >>> 8) % 256, ll := value % 256 }

/-- PPUADDR::reset: reading $2002 makes the next $2006 write the high byte. -/
def PPUADDR.reset (a : PPUADDR) : PPUADDR :=
  { a with first_write := true }

/-- PPUADDR::increment: low byte wraps in 8 bits, carrying into the high
byte, then the whole address is mirrored down into 0x0000-0x3FFF. -/
def PPUADDR.increment (a : PPUADDR) (inc : Nat) : PPUADDR :=
  let low := a.ll
  let a1 := { a with ll := (a.ll + inc) % 256 }
  let a2 := if low > a1.ll then { a1 with hh := (a1.hh + 1) % 256 } else a1
  if a2.get > 0x3FFF then a2.set (a2.get &&& 0x3FFF) else a2

/-- PPUSCROLL shadow register from src/ppu/reg_scroll.rs. -/
structure PPUSCROLL where
  scx : Nat
  scy : Nat
  write_latch : Bool
deriving DecidableEq

/-- PPUSCROLL::reset_scroll: the next $2005 write sets scroll-X. -/
def PPUSCROLL.reset_scroll (s : PPUSCROLL) : PPUSCROLL :=
  { s with write_latch := false }

/-- PPU state from src/ppu/mod.rs (`struct PPU`).  The byte arrays
(chr_rom, vram, palette_table, oam_data) are modelled as total byte maps;
the bitflags register shadows are the raw status/control/mask bytes. -/
structure PPU where
  chr_rom : Nat → Nat
  palette_table : Nat → Nat
  vram : Nat → Nat
  mirroring : MirroringType
  reg_address : PPUADDR
  reg_controller : Nat
  reg_mask : Nat
  reg_status : Nat
  reg_scroll : PPUSCROLL
  nmi_interrupt : Option Nat
  internal_data_buffer : Nat
  oam_data : Nat → Nat
  oam_address : Nat
  scanline : Nat
  cycles : Nat

/-- PPU::mirror_vram: fold 0x2000-0x3EFF onto the 2 KiB nametable RAM
according to the cartridge mirroring. -/
def PPU.mirror_vram (p : PPU) (address : Nat) : Nat :=
  let mirror_down := address &&& 0x2FFF
  let vram_position := mirror_down - 0x2000
  let nametable := vram_position / 0x400
  match p.mirroring, nametable with
  | MirroringType.Vertical, 2 => vram_position - 0x800
  | MirroringType.Vertical, 3 => vram_position - 0x800
  | MirroringType.Horizontal, 3 => vram_position - 0x800
  | MirroringType.Horizontal, 1 => vram_position - 0x400
  | MirroringType.Horizontal, 2 => vram_position - 0x400
  | _, _ => vram_position

/-- PPUCTRL::generate_nmi: bit 7 of the control shadow. -/
def PPU.generate_nmi (p : PPU) : Bool :=
  p.reg_controller &&& 0x80 ≠ 0

/-- PPU::increment_vram_address: +1 or +32 per CTRL bit 2
(VRAM_ADDR_INCREMENT). -/
def PPU.increment_vram_address (p : PPU) : PPU :=
  if p.reg_controller &&& 0x04 = 0 then
    { p with reg_address := p.reg_address.increment 1 }
  else
    { p with reg_address := p.reg_address.increment 32 }

/-- PPU::read_data ($2007 read): buffered reads below 0x3000, panic on
0x3000-0x3EFF, direct palette reads in 0x3F00-0x3FFF (with the four
alias addresses mirrored down).  `none` models the Rust panic branches. -/
def PPU.read_data (p0 : PPU) : Option (Nat × PPU) :=
  let address := p0.reg_address.get
  let p := p0.increment_vram_address
  if address ≤ 0x1FFF then
    some (p.internal_data_buffer,
      { p with internal_data_buffer := p.chr_rom address })
  else if address ≤ 0x2FFF then
    some (p.internal_data_buffer,
      { p with internal_data_buffer := p.vram (p.mirror_vram address) })
  else if address ≤ 0x3EFF then
    none
  else if address = 0x3F10 ∨ address = 0x3F14 ∨ address = 0x3F18 ∨ address = 0x3F1C then
    some (p.palette_table ((address - 0x10) - 0x3F00), p)
  else if address ≤ 0x3FFF then
    some (p.palette_table (address - 0x3F00), p)
  else
    none

/-- PPU::read_status ($2002 read): return the committed status byte, then
clear VBlank (bit 7) and reset both write toggles. -/
def PPU.read_status (p : PPU) : Nat × PPU :=
  let current_status := p.reg_status
  (current_status,
    { p with
      reg_status := p.reg_status &&& 0x7F,
      reg_address := p.reg_address.reset,
      reg_scroll := p.reg_scroll.reset_scroll })

/-- PPU::poll_sprite_zero_hit: OAM entry 0 Y equals the scanline, its X is
at most the current cycle, and MASK.ShowSprites (bit 4) is set. -/
def PPU.poll_sprite_zero_hit (p : PPU) (cycle : Nat) : Bool :=
  let x := p.oam_data 3
  let y := p.oam_data 0
  y = p.scanline ∧ x ≤ cycle ∧ p.reg_mask &&& 0x10 ≠ 0

/-- PPU::tick: advance the (scanline, cycle) pair by `dots` dots; returns
`true` exactly on the frame rollover (scanline wraps 262 → 0).  Status bit
0x40 is SpriteZeroHit, 0x80 is VBlank. -/
def PPU.tick (p : PPU) (dots : Nat) : Bool × PPU :=
  let p1 := { p with cycles := p.cycles + dots }
  if p1.cycles ≥ 341 then
    let p2 :=
      if p1.poll_sprite_zero_hit p1.cycles then
        { p1 with reg_status := p1.reg_status ||| 0x40 }
      else p1
    let p3 := { p2 with cycles := p2.cycles - 341, scanline := p2.scanline + 1 }
    let p4 :=
      if p3.scanline = 241 then
        { p3 with
          reg_status := (p3.reg_status ||| 0x80) &&& 0xBF,
          nmi_interrupt := if p3.generate_nmi then some 1 else p3.nmi_interrupt }
      else p3
    if p4.scanline ≥ 262 then
      (true,
        { p4 with
          scanline := 0,
          nmi_interrupt := none,
          reg_status := (p4.reg_status &&& 0xBF) &&& 0x7F })
    else (false, p4)
  else (false, p1)

/-- Bus state from src/bus.rs restricted to the fields the tick coupling
touches: the cumulative CPU-cycle counter and the PPU. -/
structure Bus where
  cycles : Nat
  ppu : PPU

/-- Bus::tick: record CPU cycles, then advance the PPU by `cycles * 3`
dots.  The multiplication is performed on u8 in the source, hence the
`% 256`; the frame callback only observes state and is omitted. -/
def Bus.tick (b : Bus) (c : Nat) : Bus :=
  { cycles := b.cycles + c, ppu := (b.ppu.tick ((c * 3) % 256)).2 }

/-- Cumulative PPU dot count of a state within the current frame:
scanline × 341 + intra-scanline cycle counter. -/
def ppuDots (p : PPU) : Nat :=
  p.scanline * 341 + p.cycles

/-- Dots discarded by Bus.tick when the PPU rolls the frame over during
this tick (262 scanlines × 341 dots); zero when no rollover happens.
Adding it back accumulates the dot count across frame rollovers. -/
def frameRollAdjust (b : Bus) (c : Nat) : Nat :=
  if (b.ppu.tick ((c * 3) % 256)).1 then 262 * 341 else 0

/-- CPU-visible memory, abstracted over the backing Bus: a byte map over
16-bit addresses (the `Memory` trait of src/cpu.rs). -/
def Mem : Type := Nat → Nat

/-- Read one byte: addresses are u16, contents u8. -/
def memRead (m : Mem) (a : Nat) : Nat :=
  m (a % 65536) % 256

/-- Write one byte at a u16 address. -/
def memWrite (m : Mem) (a : Nat) (v : Nat) : Mem :=
  fun x => if x = a % 65536 then v % 256 else m x

/-- Memory::mem_read_u16: little-endian 16-bit read, `(hh << 8) | ll`
(which for bytes equals `256 * hh + ll`); the `addr + 1` wraps in u16. -/
def memReadU16 (m : Mem) (a : Nat) : Nat :=
  256 * memRead m ((a + 1) % 65536) + memRead m a

/-- CPU::jmp (opcode 0x6C, indirect JMP) from src/cpu.rs: reads the 16-bit
operand at PC; when the operand address ends in 0xFF the high byte of the
target is fetched from the start of the same page (the 6502 page-wrap
bug).  Returns the new PC. -/
def jmpInd (m : Mem) (pc : Nat) : Nat :=
  let address := memReadU16 m pc
  if address &&& 0x00FF = 0x00FF then
    256 * memRead m (address &&& 0xFF00) + memRead m address
  else
    memReadU16 m address

/-- CPU register file from src/cpu.rs (`struct CPU`), with the memory it
reads and writes through the Memory trait. -/
structure CPUState where
  reg_a : Nat
  reg_x : Nat
  reg_y : Nat
  reg_pc : Nat
  reg_sp : Nat
  reg_status : Nat
  mem : Mem

/-- StatusFlags bit constants from src/cpu.rs. -/
def CARRY : Nat := 0x01
/-- StatusFlags ZERO bit. -/
def ZERO : Nat := 0x02
/-- StatusFlags interrupt-disable bit. -/
def INTERRUPT_DISABLE : Nat := 0x04
/-- StatusFlags DECIMAL bit. -/
def DECIMAL : Nat := 0x08
/-- StatusFlags BREAK bit (B). -/
def BREAK : Nat := 0x10
/-- StatusFlags BREAK_2 bit (U, the unused bit). -/
def BREAK_2 : Nat := 0x20
/-- StatusFlags OVERFLOW bit (V). -/
def OVERFLOW_FLAG : Nat := 0x40
/-- StatusFlags NEGATIVE bit (N). -/
def NEGATIVE : Nat := 0x80

/-- CPU::handle_flags_z_n: set Z when the value is zero, set N from bit 7
of the value (bitflags insert is OR, remove is AND-NOT within u8). -/
def handle_flags_z_n (p : Nat) (value : Nat) : Nat :=
  let p1 := if value = 0 then p ||| ZERO else p &&& (0xFF ^^^ ZERO)
  if value &&& 0x80 ≠ 0 then p1 ||| NEGATIVE else p1 &&& (0xFF ^^^ NEGATIVE)

/-- CPU::stack_push: write at 0x0100 + SP, then SP decrements with 8-bit
wrap. -/
def stack_push (s : CPUState) (value : Nat) : CPUState :=
  { s with
    mem := memWrite s.mem (0x0100 + s.reg_sp) value,
    reg_sp := (s.reg_sp + 255) % 256 }

/-- CPU::stack_pop: SP pre-increments with 8-bit wrap, then read at
0x0100 + SP. -/
def stack_pop (s : CPUState) : Nat × CPUState :=
  let sp := (s.reg_sp + 1) % 256
  (memRead s.mem (0x0100 + sp), { s with reg_sp := sp })

/-- CPU::pha: push the accumulator. -/
def pha (s : CPUState) : CPUState :=
  stack_push s s.reg_a

/-- CPU::php: push P with BREAK and BREAK_2 forced to 1. -/
def php (s : CPUState) : CPUState :=
  stack_push s ((s.reg_status ||| BREAK) ||| BREAK_2)

/-- CPU::pla: pop into the accumulator and update Z/N. -/
def pla (s : CPUState) : CPUState :=
  let r := stack_pop s
  { r.2 with reg_a := r.1, reg_status := handle_flags_z_n r.2.reg_status r.1 }

/-- CPU::plp: pop into P, then remove BREAK and insert BREAK_2. -/
def plp (s : CPUState) : CPUState :=
  let r := stack_pop s
  { r.2 with reg_status := (r.1 &&& (0xFF ^^^ BREAK)) ||| BREAK_2 }

/-- PHA; PHP; PLP; PLA in sequence (spec scenario 4). -/
def stackRoundTrip (s : CPUState) : CPUState :=
  pla (plp (php (pha s)))

/-- CPU::tax: X ← A, update Z/N. -/
def tax (s : CPUState) : CPUState :=
  { s with reg_x := s.reg_a, reg_status := handle_flags_z_n s.reg_status s.reg_a }

/-- CPU::tay: Y ← A, update Z/N. -/
def tay (s : CPUState) : CPUState :=
  { s with reg_y := s.reg_a, reg_status := handle_flags_z_n s.reg_status s.reg_a }

/-- CPU::tsx: X ← SP, update Z/N. -/
def tsx (s : CPUState) : CPUState :=
  { s with reg_x := s.reg_sp, reg_status := handle_flags_z_n s.reg_status s.reg_sp }

/-- CPU::txa: A ← X, update Z/N. -/
def txa (s : CPUState) : CPUState :=
  { s with reg_a := s.reg_x, reg_status := handle_flags_z_n s.reg_status s.reg_x }

/-- CPU::txs: SP ← X (no flag update, as on hardware). -/
def txs (s : CPUState) : CPUState :=
  { s with reg_sp := s.reg_x }

/-- CPU::tya as written in src/cpu.rs: A ← Y with NO flag update (the
source omits the handle_flags_z_n call present in the other transfers). -/
def tya (s : CPUState) : CPUState :=
  { s with reg_a := s.reg_y }

/-- Joypad state from src/joypad.rs. -/
structure Joypad where
  strobe_status : Bool
  button_status : Nat
  button_index : Nat
deriving DecidableEq

/-- Joypad::new. -/
def Joypad.new : Joypad :=
  { strobe_status := false, button_status := 0, button_index := 0 }

/-- Joypad::read: past the 8th bit return 1 without touching the index;
otherwise return the bit at the index and advance the index unless the
strobe is high. -/
def Joypad.read (j : Joypad) : Nat × Joypad :=
  if j.button_index > 7 then (1, j)
  else
    let result := (j.button_status &&& (1 <<< j.button_index)) >>> j.button_index
    let j1 :=
      if ¬j.strobe_status ∧ j.button_index ≤ 7 then
        { j with button_index := j.button_index + 1 }
      else j
    (result, j1)

/-- Joypad::write: latch strobe from bit 0; when strobe goes high the read
index resets to 0. -/
def Joypad.write (j : Joypad) (value : Nat) : Joypad :=
  let strobe := value &&& 0x01 = 1
  let j1 := { j with strobe_status := strobe }
  if strobe then { j1 with button_index := 0 } else j1

/-- Reachable-state invariant of the Joypad: whenever the strobe is high,
the read index is 0. -/
def JoypadInv (j : Joypad) : Prop :=
  j.strobe_status = true → j.button_index = 0

/-- UxROM mapper state from src/mapper/uxrom.rs. -/
structure UXROM where
  bank_select_register : Nat
  prg_banks : Nat
deriving DecidableEq

/-- UXROM::map_prg as written in the source: the switchable bank is used
for `address <= 0xC000` (note the non-strict comparison), the fixed last
bank above that. -/
def UXROM.map_prg (u : UXROM) (address : Nat) : Nat :=
  let bank := if address ≤ 0xC000 then u.bank_select_register else u.prg_banks - 1
  let mapped_address := address &&& 0x3FFF
  0x4000 * bank + mapped_address

/-- UXROM::bank_select: store the low 4 bits of the written value. -/
def UXROM.bank_select (u : UXROM) (value : Nat) : UXROM :=
  { u with bank_select_register := value &&& 0x0F }

/-- Cartridge ROM contents as carried by the Bus (rom_prg / rom_chr of the
loaded cartridge plus its mapper). -/
structure Cartridge where
  rom_prg : List Nat
  rom_chr : List Nat
  mapper : UXROM
deriving DecidableEq

/-- Bus::mem_write_u32 from src/bus.rs: writes the value into rom_chr when
the mapped address is at most 0x2000, and (unconditionally) into rom_prg.
List.set leaves the list unchanged out of range (the Rust code would
panic there; the claims only exercise in-range indices). -/
def mem_write_u32 (c : Cartridge) (addr : Nat) (value : Nat) : Cartridge :=
  let c1 :=
    if addr ≤ 0x2000 then { c with rom_chr := c.rom_chr.set addr value } else c
  { c1 with rom_prg := c1.rom_prg.set addr value }

/-- Bus::mem_write, branch for 0x8000-0xFFFF: maps the CPU address through
the mapper and hands it to mem_write_u32 (the source never calls
bank_select here). -/
def busWritePrg (c : Cartridge) (addr : Nat) (value : Nat) : Cartridge :=
  mem_write_u32 c (c.mapper.map_prg addr) value

/-- Result of iNES parsing: a parsed cartridge, an error string, or a
Rust panic (out-of-bounds index or slice). -/
inductive ParseOutcome where
  | ok (rom_prg : List Nat) (rom_chr : List Nat) (mapper : Nat)
       (mirroring : MirroringType)
  | err (msg : String)
  | crash
deriving DecidableEq

/-- ROM::new from src/cartridge.rs, in source order: index bytes 6 and 7
(panicking when the buffer is shorter), compute the mapper id, check the
iNES magic, then slice out PRG and CHR (panicking when the buffer is
truncated before the declared sizes). -/
def rom_new (binary : List Nat) : ParseOutcome :=
  match binary.get? 6, binary.get? 7 with
  | some control_byte_one, some control_byte_two =>
    let mapper := (control_byte_two &&& 0xF0) ||| (control_byte_one >>> 4)
    if binary.take 4 ≠ [0x4E, 0x45, 0x53, 0x1A] then
      ParseOutcome.err "File is in incorrect format"
    else
      let rom_prg_size := (binary.getD 4 0) * 16384
      let rom_chr_size := (binary.getD 5 0) * 8192
      let is_trainer := control_byte_one &&& 0x04 ≠ 0
      let rom_prg_start := 16 + if is_trainer then 512 else 0
      let rom_chr_start := rom_prg_start + rom_prg_size
      let mirroring_plane := control_byte_one &&& 0x01 ≠ 0
      let mirroring_four_screen := control_byte_one &&& 0x08 ≠ 0
      let mirroring :=
        if mirroring_four_screen then MirroringType.FourScreen
        else if mirroring_plane then MirroringType.Vertical
        else MirroringType.Horizontal
      if rom_prg_start + rom_prg_size ≤ binary.length ∧
         rom_chr_start + rom_chr_size ≤ binary.length then
        ParseOutcome.ok ((binary.drop rom_prg_start).take rom_prg_size)
          ((binary.drop rom_chr_start).take rom_chr_size) mapper mirroring
      else
        ParseOutcome.crash
  | _, _ => ParseOutcome.crash

/-
Concrete states used by the theorems below.
-/

/-- Memory for the indirect-JMP scenario: 0x30FF=0x80, 0x3000=0x50,
0x3100=0x40, with the operand bytes FF 30 of `6C FF 30` at 0x0600. -/
def jmpScenarioMem : Mem :=
  fun a =>
    if a = 0x30FF then 0x80
    else if a = 0x3000 then 0x50
    else if a = 0x3100 then 0x40
    else if a = 0x0600 then 0xFF
    else if a = 0x0601 then 0x30
    else 0

/-- CPU state for the stack round-trip scenario: SP=0xFD, A=0xAA, P=0xC3,
all memory zero. -/
def stackState : CPUState :=
  { reg_a := 0xAA, reg_x := 0, reg_y := 0, reg_pc := 0x8000,
    reg_sp := 0xFD, reg_status := 0xC3, mem := fun _ => 0 }

/-- CPU state exercising TYA with Y = 0 and the Z flag clear (P = 0x24). -/
def tyaState : CPUState :=
  { reg_a := 1, reg_x := 0, reg_y := 0, reg_pc := 0x8000,
    reg_sp := 0xFD, reg_status := 0x24, mem := fun _ => 0 }

/-- PPU state with the VRAM address register at 0x3F00 (palette), a stale
data-port buffer 0xAB, palette byte 0x77 at entry 0, and every nametable
byte 0x55. -/
def ppuPalette : PPU :=
  { chr_rom := fun _ => 0,
    palette_table := fun a => if a = 0 then 0x77 else 0,
    vram := fun _ => 0x55,
    mirroring := MirroringType.Horizontal,
    reg_address := { ll := 0x00, hh := 0x3F, first_write := true },
    reg_controller := 0, reg_mask := 0, reg_status := 0,
    reg_scroll := { scx := 0, scy := 0, write_latch := false },
    nmi_interrupt := none, internal_data_buffer := 0xAB,
    oam_data := fun _ => 0, oam_address := 0, scanline := 0, cycles := 0 }

/-- PPU state one dot short of the frame rollover (scanline 261, cycle
340). -/
def ppuEndOfFrame : PPU :=
  { chr_rom := fun _ => 0, palette_table := fun _ => 0, vram := fun _ => 0,
    mirroring := MirroringType.Horizontal,
    reg_address := { ll := 0, hh := 0, first_write := true },
    reg_controller := 0, reg_mask := 0, reg_status := 0,
    reg_scroll := { scx := 0, scy := 0, write_latch := false },
    nmi_interrupt := none, internal_data_buffer := 0,
    oam_data := fun _ => 0, oam_address := 0, scanline := 261, cycles := 340 }

/-- Bus holding ppuEndOfFrame. -/
def busEndOfFrame : Bus :=
  { cycles := 0, ppu := ppuEndOfFrame }

/-- UxROM mapper with bank register 0 over a 2-bank (32 KiB) PRG image. -/
def uxromTwoBanks : UXROM :=
  { bank_select_register := 0, prg_banks := 2 }

/-- Two-byte PRG/CHR cartridge used to observe ROM mutation. -/
def cartTiny : Cartridge :=
  { rom_prg := [1, 2], rom_chr := [3, 4], mapper := uxromTwoBanks }

/-- Joypad with the index already past the 8th button. -/
def joyPastEnd : Joypad :=
  { strobe_status := false, button_status := 0xA5, button_index := 8 }

/-- Joypad with the strobe held high. -/
def joyStrobeHigh : Joypad :=
  { strobe_status := true, button_status := 0xA5, button_index := 0 }

/-
Theorems.
-/

/-- C2: for every 16-bit operand address ending in 0xFF, indirect JMP
(opcode 0x6C) takes the target low byte from memory at that address and
the target high byte from the start of the same page (address &&& 0xFF00),
and in the concrete scenario (0x30FF=0x80, 0x3000=0x50, 0x3100=0x40,
executing 6C FF 30) the new PC is 0x5080. -/
theorem jmp_indirect_page_wrap (m : Mem) (pc : Nat)
    (h : memReadU16 m pc &&& 0x00FF = 0x00FF) :
    (jmpInd m pc) % 256 = memRead m (memReadU16 m pc) ∧
    (jmpInd m pc) / 256 = memRead m (memReadU16 m pc &&& 0xFF00) ∧
    jmpInd jmpScenarioMem 0x0600 = 0x5080 := by
  have hll : memRead m (memReadU16 m pc) < 256 := Nat.mod_lt _ (by norm_num)
  unfold jmpInd
  rw [if_pos h]
  refine ⟨?_, ?_, by decide⟩
  · omega
  · omega

/-- C2 witness: the page-wrap theorem applied to the concrete scenario
memory. -/
theorem jmp_indirect_page_wrap_witness :
    memReadU16 jmpScenarioMem 0x0600 &&& 0x00FF = 0x00FF ∧
    ((jmpInd jmpScenarioMem 0x0600) % 256 =
        memRead jmpScenarioMem (memReadU16 jmpScenarioMem 0x0600) ∧
      (jmpInd jmpScenarioMem 0x0600) / 256 =
        memRead jmpScenarioMem (memReadU16 jmpScenarioMem 0x0600 &&& 0xFF00) ∧
      jmpInd jmpScenarioMem 0x0600 = 0x5080) :=
  ⟨by decide, jmp_indirect_page_wrap jmpScenarioMem 0x0600 (by decide)⟩

/-- C3 counterexample: from SP=0xFD, A=0xAA, P=0xC3, the PHA; PHP; PLP;
PLA sequence does NOT produce the claimed result (P=0xE3, 0x01FD=0xE3,
0x01FC=0xAA): the code yields P=0xE1 (PLA re-derives Z and N from the
popped 0xAA) and stack bytes 0x01FD=0xAA, 0x01FC=0xF3. -/
theorem stack_round_trip_claim_false :
    ¬((stackRoundTrip stackState).reg_a = 0xAA ∧
      (stackRoundTrip stackState).reg_status = 0xE3 ∧
      (stackRoundTrip stackState).reg_sp = 0xFD ∧
      memRead (stackRoundTrip stackState).mem 0x01FD = 0xE3 ∧
      memRead (stackRoundTrip stackState).mem 0x01FC = 0xAA) := by
  decide

/-- C3 amended: from SP=0xFD, A=0xAA, P=0xC3 (any other registers and
memory), PHA; PHP; PLP; PLA yields A=0xAA, P=0xE1 (B cleared, U set, Z
cleared and N set by PLA), SP back to 0xFD, with stack bytes
0x01FD=0xAA (pushed by PHA) and 0x01FC=0xF3 (P with B and U forced to 1,
pushed by PHP). -/
theorem stack_round_trip_amended (s : CPUState)
    (ha : s.reg_a = 0xAA) (hp : s.reg_status = 0xC3) (hsp : s.reg_sp = 0xFD) :
    (stackRoundTrip s).reg_a = 0xAA ∧
    (stackRoundTrip s).reg_status = 0xE1 ∧
    (stackRoundTrip s).reg_sp = 0xFD ∧
    memRead (stackRoundTrip s).mem 0x01FD = 0xAA ∧
    memRead (stackRoundTrip s).mem 0x01FC = 0xF3 := by
  simp [stackRoundTrip, pla, plp, php, pha, stack_push, stack_pop,
    handle_flags_z_n, memRead, memWrite, BREAK, BREAK_2, ZERO, NEGATIVE,
    ha, hp, hsp]
  decide

/-- C3 witness for the amended theorem, at the concrete scenario state. -/
theorem stack_round_trip_amended_witness :
    (stackRoundTrip stackState).reg_a = 0xAA ∧
    (stackRoundTrip stackState).reg_status = 0xE1 ∧
    (stackRoundTrip stackState).reg_sp = 0xFD ∧
    memRead (stackRoundTrip stackState).mem 0x01FD = 0xAA ∧
    memRead (stackRoundTrip stackState).mem 0x01FC = 0xF3 :=
  stack_round_trip_amended stackState rfl rfl rfl

/-- C4: reading $2007 with the VRAM address in the palette range returns
the live palette byte, but the source leaves the internal data-port
buffer stale (0xAB) instead of refilling it from the mirrored nametable
byte (0x55 at the mirror of 0x2F00), contradicting the specification. -/
theorem ppu_palette_read_keeps_stale_buffer :
    (PPU.read_data ppuPalette).map Prod.fst = some 0x77 ∧
    (PPU.read_data ppuPalette).map (fun r => r.2.internal_data_buffer) =
      some 0xAB ∧
    ppuPalette.vram (ppuPalette.mirror_vram 0x2F00) = 0x55 ∧
    (0xAB : Nat) ≠ 0x55 := by
  decide

/-- C5: a CPU write of 7 to 0x8000 goes through mem_write_u32 and mutates
both the PRG-ROM and the CHR-ROM byte sequences of the cartridge (the
source never routes the write to the mapper's bank_select). -/
theorem prg_write_mutates_rom :
    (busWritePrg cartTiny 0x8000 7).rom_prg = [7, 2] ∧
    (busWritePrg cartTiny 0x8000 7).rom_chr = [7, 4] ∧
    (busWritePrg cartTiny 0x8000 7).rom_prg ≠ cartTiny.rom_prg ∧
    (busWritePrg cartTiny 0x8000 7).rom_chr ≠ cartTiny.rom_chr := by
  decide

/-- C6: at the boundary address 0xC000 UxROM map_prg uses the switchable
bank (returning 0 with bank register 0), not the fixed last bank offset
0x4000 required by the specification (and by the source's own comment). -/
theorem uxrom_boundary_uses_switchable_bank :
    uxromTwoBanks.map_prg 0xC000 = 0 ∧
    (uxromTwoBanks.prg_banks - 1) * 0x4000 + (0xC000 &&& 0x3FFF) = 0x4000 ∧
    uxromTwoBanks.map_prg 0xC000 ≠
      (uxromTwoBanks.prg_banks - 1) * 0x4000 + (0xC000 &&& 0x3FFF) := by
  decide

/-- C7: TYA with Y = 0 and P = 0x24 transfers 0 into A but leaves the
status byte untouched, so Z stays clear although the result is zero (the
source's tya omits the handle_flags_z_n call every other flag-setting
transfer performs). -/
theorem tya_skips_flag_update :
    (tya tyaState).reg_a = 0 ∧
    (tya tyaState).reg_status &&& ZERO = 0 ∧
    (tya tyaState).reg_status = tyaState.reg_status := by
  decide

/-- C9: ROM::new indexes header bytes 6 and 7 before any validation, so a
4-byte buffer (shorter than the iNES header, magic invalid) makes it
panic instead of returning the error result the specification requires. -/
theorem rom_new_short_buffer_crashes :
    rom_new [0, 0, 0, 0] = ParseOutcome.crash ∧
    ∀ msg : String, rom_new [0, 0, 0, 0] ≠ ParseOutcome.err msg := by
  refine ⟨rfl, fun msg h => ?_⟩
  exact nomatch h

/-- Dot-count accounting for a single PPU::tick: the dot measure
(scanline × 341 + cycle), plus 262 × 341 whenever this tick rolled the
frame over, grows by exactly the dots passed in; and the scanline stays
within a frame. -/
theorem ppu_tick_dot_accounting (p : PPU) (d : Nat) (hs : p.scanline ≤ 261) :
    ppuDots (p.tick d).2 + (if (p.tick d).1 then 262 * 341 else 0) =
      ppuDots p + d ∧
    (p.tick d).2.scanline ≤ 261 := by
  simp only [PPU.tick, ppuDots]
  split_ifs <;> simp_all <;> omega

/-- C1: Bus::tick(c) advances the PPU's cumulative dot count (scanline ×
341 + intra-scanline cycle, accumulated across frame rollovers via
frameRollAdjust) by exactly 3 × c dots, for every cycle count c the
emulator ever passes (the opcode table tops out at 8 cycles; any c ≤ 85
keeps the source's u8 multiplication `cycles * 3` from wrapping), and
preserves the scanline bound. -/
theorem bus_tick_advances_ppu_dots (b : Bus) (c : Nat)
    (hc : c ≤ 85) (hs : b.ppu.scanline ≤ 261) :
    ppuDots (b.tick c).ppu + frameRollAdjust b c = ppuDots b.ppu + 3 * c ∧
    (b.tick c).ppu.scanline ≤ 261 := by
  have h3 : (c * 3) % 256 = 3 * c := by omega
  have h := ppu_tick_dot_accounting b.ppu ((c * 3) % 256) hs
  rw [h3] at h
  unfold Bus.tick frameRollAdjust
  rw [h3]
  exact h

/-- C1 witness: ticking 7 CPU cycles from scanline 261, cycle 340 (one
dot before the frame rollover) advances the accumulated dot count by 21. -/
theorem bus_tick_advances_ppu_dots_witness :
    ppuDots (busEndOfFrame.tick 7).ppu + frameRollAdjust busEndOfFrame 7 =
      ppuDots busEndOfFrame.ppu + 3 * 7 ∧
    (busEndOfFrame.tick 7).ppu.scanline ≤ 261 :=
  bus_tick_advances_ppu_dots busEndOfFrame 7 (by decide) (by decide)

/-- C8: reading $2002 returns the status byte the PPU last committed, and
afterwards the VBlank bit is clear, the $2006 latch expects the high byte
(first_write = true), the $2005 latch expects scroll-X (write_latch =
false), the other status bits survive unchanged, and every other piece of
PPU state is untouched. -/
theorem read_status_effects (p : PPU) :
    (p.read_status).1 = p.reg_status ∧
    (p.read_status).2.reg_status = p.reg_status &&& 0x7F ∧
    (p.read_status).2.reg_status &&& 0x80 = 0 ∧
    (p.read_status).2.reg_address.first_write = true ∧
    (p.read_status).2.reg_scroll.write_latch = false ∧
    (p.read_status).2.reg_address.hh = p.reg_address.hh ∧
    (p.read_status).2.reg_address.ll = p.reg_address.ll ∧
    (p.read_status).2.reg_scroll.scx = p.reg_scroll.scx ∧
    (p.read_status).2.reg_scroll.scy = p.reg_scroll.scy ∧
    (p.read_status).2.chr_rom = p.chr_rom ∧
    (p.read_status).2.palette_table = p.palette_table ∧
    (p.read_status).2.vram = p.vram ∧
    (p.read_status).2.mirroring = p.mirroring ∧
    (p.read_status).2.reg_controller = p.reg_controller ∧
    (p.read_status).2.reg_mask = p.reg_mask ∧
    (p.read_status).2.nmi_interrupt = p.nmi_interrupt ∧
    (p.read_status).2.internal_data_buffer = p.internal_data_buffer ∧
    (p.read_status).2.oam_data = p.oam_data ∧
    (p.read_status).2.oam_address = p.oam_address ∧
    (p.read_status).2.scanline = p.scanline ∧
    (p.read_status).2.cycles = p.cycles := by
  unfold PPU.read_status PPUADDR.reset PPUSCROLL.reset_scroll
  refine ⟨rfl, rfl, ?_, rfl, rfl, rfl, rfl, rfl, rfl, rfl, rfl, rfl, rfl,
    rfl, rfl, rfl, rfl, rfl, rfl, rfl, rfl⟩
  rw [Nat.and_assoc]
  show p.reg_status &&& 0 = 0
  exact Nat.and_zero _

/-- C10: with the strobe low and the index past the 8th button, read()
returns 1 and leaves the whole joypad unchanged; with the strobe high,
read() returns bit 0 of the latched mask and changes nothing (using the
invariant that a high strobe pins the index at 0, which holds initially
and is preserved by every write and read). -/
theorem joypad_read_semantics :
    (∀ j : Joypad, j.strobe_status = false → 7 < j.button_index →
      Joypad.read j = (1, j)) ∧
    (∀ j : Joypad, JoypadInv j → j.strobe_status = true →
      (Joypad.read j).1 = j.button_status &&& 0x01 ∧ (Joypad.read j).2 = j) ∧
    JoypadInv Joypad.new ∧
    (∀ j : Joypad, ∀ v : Nat, JoypadInv j → JoypadInv (Joypad.write j v)) ∧
    (∀ j : Joypad, JoypadInv j → JoypadInv (Joypad.read j).2) := by
  refine ⟨?_, ?_, ?_, ?_, ?_⟩
  · intro j hs h7
    simp [Joypad.read, h7]
  · intro j hinv hs
    have h0 : j.button_index = 0 := hinv hs
    simp [Joypad.read, h0, hs]
  · intro _
    rfl
  · intro j v hinv
    simp only [Joypad.write, JoypadInv]
    split_ifs with hv <;> intro hs
    · rfl
    · simp_all
  · intro j hinv
    simp only [Joypad.read, JoypadInv]
    split_ifs with h7 hadv <;> intro hs
    · exact hinv hs
    · exact absurd hs (by simpa using hadv.1)
    · exact hinv hs

/-- C10 witness: the read semantics at the concrete joypads joyPastEnd
(strobe low, index 8) and joyStrobeHigh (strobe high, index 0). -/
theorem joypad_read_semantics_witness :
    Joypad.read joyPastEnd = (1, joyPastEnd) ∧
    ((Joypad.read joyStrobeHigh).1 = joyStrobeHigh.button_status &&& 0x01 ∧
      (Joypad.read joyStrobeHigh).2 = joyStrobeHigh) ∧
    JoypadInv (Joypad.write joyStrobeHigh 1) ∧
    JoypadInv (Joypad.read joyStrobeHigh).2 :=
  ⟨joypad_read_semantics.1 joyPastEnd rfl (by decide),
   joypad_read_semantics.2.1 joyStrobeHigh (fun _ => rfl) rfl,
   joypad_read_semantics.2.2.2.1 joyStrobeHigh 1 (fun _ => rfl),
   joypad_read_semantics.2.2.2.2 joyStrobeHigh (fun _ => rfl)⟩

end Nesemu
